import Mathlib

/-!
Verification of the health-check phase-acquisition controller of the
track-facility kiosk application.

The embedding below translates the active variant of
src/src/lib/hooks/useHealthCheck.ts into Lean: the React state object and
the mutable refs are merged into one record (Controller), together with an
observation log of the externally visible effects (toast failure signals,
navigations, POST submissions, localStorage writes).  The three callbacks
handleDataEvent, handleTimeout and handleComplete become pure state
transformers; the result of the awaited fetch call is passed in as an
explicit oracle (FetchOutcome).  setState functional updates are applied in
program order, so the sequential threading of the record mirrors the order
of the statements in the source.
-/

namespace TrackFacility

set_option maxRecDepth 4000

/-- The value domain of JavaScript numbers as far as this program observes
them: parseFloat either fails (NaN), yields an infinity, or yields a finite
decimal value (modelled as a rational; the program performs no arithmetic
on readings, so rounding plays no role). -/
inductive JsNum where
  | nan : JsNum
  | inf (positive : Bool) : JsNum
  | fin (val : ℚ) : JsNum
deriving DecidableEq, Repr

/-- JavaScript string whitespace accepted by parseFloat. -/
def jsWhitespace (c : Char) : Bool :=
  c == ' ' || c == '\t' || c == '\n' || c == '\r' || c == '\x0b' || c == '\x0c'

/-- Numeric value of a decimal digit character. -/
def digitVal (c : Char) : ℕ := c.toNat - 48

/-- Value of a list of decimal digit characters. -/
def digitsToNat (ds : List Char) : ℕ := ds.foldl (fun a c => 10 * a + digitVal c) 0

/-- Whether the first list is an initial segment of the second. -/
def startsWithLit : List Char → List Char → Bool
  | [], _ => true
  | _ :: _, [] => false
  | p :: ps, c :: cs => p == c && startsWithLit ps cs

/-- Parse the longest decimal-literal mantissa (digits, optionally with a
fractional part) at the head of the character list; none when no digit is
present, mirroring how parseFloat fails on such input. -/
def parseMantissa (cs : List Char) : Option (ℚ × List Char) :=
  let ip := cs.takeWhile Char.isDigit
  let r1 := cs.dropWhile Char.isDigit
  match r1 with
  | '.' :: r2 =>
    let fp := r2.takeWhile Char.isDigit
    let r3 := r2.dropWhile Char.isDigit
    if ip.isEmpty && fp.isEmpty then none
    else some ((digitsToNat ip : ℚ) + (digitsToNat fp : ℚ) / (10 : ℚ) ^ fp.length, r3)
  | _ => if ip.isEmpty then none else some ((digitsToNat ip : ℚ), r1)

/-- Apply a trailing exponent part (e or E, optional sign, digits) to the
mantissa; with no valid exponent the mantissa stands alone, as parseFloat
takes the longest valid literal. -/
def applyExp (q : ℚ) (cs : List Char) : ℚ :=
  match cs with
  | c :: rest =>
    if c == 'e' || c == 'E' then
      let signedRest : ℤ × List Char :=
        match rest with
        | '-' :: r => (-1, r)
        | '+' :: r => (1, r)
        | r => (1, r)
      let ds := signedRest.2.takeWhile Char.isDigit
      if ds.isEmpty then q
      else q * (10 : ℚ) ^ (signedRest.1 * (digitsToNat ds : ℤ))
    else q
  | [] => q

/-- JavaScript parseFloat: skip leading whitespace, read an optional sign,
accept the Infinity literal, otherwise the longest decimal literal; any
input with no parsable literal yields NaN. -/
def parseFloat (s : String) : JsNum :=
  let cs := s.toList.dropWhile jsWhitespace
  let signedCs : Bool × List Char :=
    match cs with
    | '-' :: r => (false, r)
    | '+' :: r => (true, r)
    | _ => (true, cs)
  if startsWithLit "Infinity".toList signedCs.2 then JsNum.inf signedCs.1
  else
    match parseMantissa signedCs.2 with
    | none => JsNum.nan
    | some qr =>
      let v := applyExp qr.1 qr.2
      JsNum.fin (if signedCs.1 then v else -v)

/-- The measurement phases (StateKey in src/src/lib/constants). -/
inductive StateKey where
  | TEMPERATURE : StateKey
  | PULSE : StateKey
  | ALCOHOL : StateKey
deriving DecidableEq, Repr

/-- A sensor payload (type SensorData in useHealthCheck.ts): every field is
optional and string-encoded where numeric. -/
structure SensorData where
  temperature : Option String := none
  pulse : Option String := none
  alcoholLevel : Option String := none
  sensorReady : Option Bool := none
deriving DecidableEq, Repr

/-- The body of one POST to the /health submission endpoint. -/
structure SubmitRecord where
  temperatureData : JsNum
  pulseData : JsNum
  alcoholData : String
  faceId : String
deriving DecidableEq, Repr

/-- Result of the awaited fetch: the promise either rejects (network or
transport failure) or resolves carrying the ok flag of the HTTP response.
The source never reads the flag. -/
inductive FetchOutcome where
  | rejected : FetchOutcome
  | resolved (ok : Bool) : FetchOutcome
deriving DecidableEq, Repr

/-- MAX_STABILITY_TIME from useHealthCheck.ts. -/
def MAX_STABILITY_TIME : ℕ := 7

/-- SOCKET_TIMEOUT (milliseconds) from useHealthCheck.ts. -/
def SOCKET_TIMEOUT : ℕ := 30000

/-- The full controller state: the React HealthCheckState record, the
mutable refs object, the faceId entry read from localStorage, and the log
of externally visible effects. -/
structure Controller where
  /-- state.currentState -/
  currentState : StateKey
  /-- state.stabilityTime: the single stability counter shared by all phases -/
  stabilityTime : ℕ
  /-- state.temperatureData.temperature -/
  temperature : JsNum
  /-- state.pulseData.pulse -/
  pulse : JsNum
  /-- state.alcoholData.alcoholLevel -/
  alcoholLevel : String
  /-- state.sensorReady -/
  sensorReady : Bool
  /-- state.secondsLeft (never updated by this variant) -/
  secondsLeft : ℕ
  /-- refs.hasTimedOutTemp -/
  hasTimedOutTemp : Bool
  /-- refs.hasTimedOutPulse -/
  hasTimedOutPulse : Bool
  /-- refs.hasTimedOutAlcohol -/
  hasTimedOutAlcohol : Bool
  /-- refs.finalAlcoholLevel -/
  finalAlcoholLevel : String
  /-- refs.hasBeenReady -/
  hasBeenReady : Bool
  /-- refs.isSubmitting -/
  isSubmitting : Bool
  /-- whether the socket owned by refs.socket is connected -/
  socketConnected : Bool
  /-- refs.tempTimeout is pending -/
  tempTimerArmed : Bool
  /-- refs.pulseTimeout is pending -/
  pulseTimerArmed : Bool
  /-- refs.alcoholTimeout is pending -/
  alcoholTimerArmed : Bool
  /-- localStorage.getItem of the faceId key (external input) -/
  faceId : Option String
  /-- toast.error failure signals emitted by handleTimeout, by phase -/
  failSignals : List StateKey
  /-- number of navigations to the start screen scheduled by handleTimeout -/
  navigatedHome : ℕ
  /-- number of navigations to the final-results screen by handleComplete -/
  navigatedResults : ℕ
  /-- number of console.error reports from the catch block of handleComplete -/
  completeErrors : ℕ
  /-- bodies of the POST requests issued to the submission endpoint -/
  submitted : List SubmitRecord
  /-- the finalTemperature, finalPulse, finalAlcoholLevel localStorage writes -/
  storedFinal : Option (JsNum × JsNum × String)
deriving DecidableEq, Repr

/-- The state on mount: the useState initializer plus the initial refs; the
mount effect connects the socket and arms the TEMPERATURE timer. -/
def initState (faceId : Option String) : Controller where
  currentState := StateKey.TEMPERATURE
  stabilityTime := 0
  temperature := JsNum.fin 0
  pulse := JsNum.fin 0
  alcoholLevel := "Не определено"
  sensorReady := false
  secondsLeft := 30
  hasTimedOutTemp := false
  hasTimedOutPulse := false
  hasTimedOutAlcohol := false
  finalAlcoholLevel := ""
  hasBeenReady := false
  isSubmitting := false
  socketConnected := true
  tempTimerArmed := true
  pulseTimerArmed := false
  alcoholTimerArmed := false
  faceId := faceId
  failSignals := []
  navigatedHome := 0
  navigatedResults := 0
  completeErrors := 0
  submitted := []
  storedFinal := none

/-- handleTimeout: if the phase already timed out, return; otherwise latch
the phase, emit the toast failure signal and schedule navigation home. -/
def handleTimeout (s : Controller) (t : StateKey) : Controller :=
  if (t = StateKey.TEMPERATURE ∧ s.hasTimedOutTemp = true) ∨
     (t = StateKey.PULSE ∧ s.hasTimedOutPulse = true) ∨
     (t = StateKey.ALCOHOL ∧ s.hasTimedOutAlcohol = true) then s
  else
    { s with
      hasTimedOutTemp := s.hasTimedOutTemp || (t == StateKey.TEMPERATURE),
      hasTimedOutPulse := s.hasTimedOutPulse || (t == StateKey.PULSE),
      hasTimedOutAlcohol := s.hasTimedOutAlcohol || (t == StateKey.ALCOHOL),
      failSignals := s.failSignals ++ [t],
      navigatedHome := s.navigatedHome + 1 }

/-- handleComplete: no-op unless the phase is ALCOHOL and no submission is
in flight; then latch isSubmitting, disconnect the socket, fail (releasing
the latch) when faceId is falsy - the source tests JS truthiness, so both
an absent entry and the empty string throw before the fetch - otherwise
store the final readings, POST them, and on a resolved fetch navigate to
the results screen - the ok flag of the response is never inspected - while
a rejected fetch is caught, reported, and releases the latch. -/
def handleComplete (s : Controller) (o : FetchOutcome) : Controller :=
  if s.isSubmitting = true ∨ s.currentState ≠ StateKey.ALCOHOL then s
  else
    let s1 := { s with isSubmitting := true, socketConnected := false }
    match s1.faceId with
    | none => { s1 with completeErrors := s1.completeErrors + 1, isSubmitting := false }
    | some fid =>
      if fid = "" then
        { s1 with completeErrors := s1.completeErrors + 1, isSubmitting := false }
      else
      let s2 := { s1 with
        storedFinal := some (s1.temperature, s1.pulse, s1.finalAlcoholLevel),
        submitted := s1.submitted ++
          [({ temperatureData := s1.temperature, pulseData := s1.pulse,
              alcoholData := s1.finalAlcoholLevel, faceId := fid } : SubmitRecord)] }
      match o with
      | FetchOutcome.rejected =>
        { s2 with completeErrors := s2.completeErrors + 1, isSubmitting := false }
      | FetchOutcome.resolved _ =>
        { s2 with navigatedResults := s2.navigatedResults + 1 }

/-- JavaScript truthiness of the optional temperature string: present and
nonempty. -/
def tempTruthy (t : Option String) : Bool :=
  match t with
  | none => false
  | some str => str != ""

/-- The label the alcohol branch stores: the normal classification maps to
the sober label, anything else to the drunk label. -/
def alcoholLabel (a : Option String) : String :=
  if a = some "normal" then "Трезвый" else "Пьяный"

/-- First branch of handleDataEvent: the sensorReady one-way latch. -/
def readyStep (s : Controller) (p : SensorData) : Controller :=
  if p.sensorReady ≠ none ∧ s.hasBeenReady = false then
    if p.sensorReady = some true then
      { s with hasBeenReady := true, sensorReady := true }
    else s
  else s

/-- Second branch of handleDataEvent: a truthy temperature string bumps the
counter, stores the parsed reading, moves to PULSE at the threshold and
re-arms the temperature timer.  The branch does not test currentState. -/
def tempStep (s : Controller) (p : SensorData) : Controller :=
  if tempTruthy p.temperature then
    { s with
      stabilityTime := s.stabilityTime + 1,
      temperature := parseFloat (p.temperature.getD ""),
      currentState :=
        if s.stabilityTime + 1 ≥ MAX_STABILITY_TIME then StateKey.PULSE
        else s.currentState,
      tempTimerArmed := true }
  else s

/-- Third branch of handleDataEvent: a present pulse string (empty included)
bumps the counter, stores the parsed reading, moves to ALCOHOL at the
threshold and re-arms the pulse timer.  The branch does not test
currentState. -/
def pulseStep (s : Controller) (p : SensorData) : Controller :=
  if p.pulse ≠ none then
    { s with
      stabilityTime := s.stabilityTime + 1,
      pulse := parseFloat (p.pulse.getD ""),
      currentState :=
        if s.stabilityTime + 1 ≥ MAX_STABILITY_TIME then StateKey.ALCOHOL
        else s.currentState,
      pulseTimerArmed := true }
  else s

/-- Fourth branch of handleDataEvent: a present alcohol classification,
gated on the readiness latch, overwrites the stored label, forces the
counter to the threshold, re-arms the alcohol timer and invokes
handleComplete. -/
def alcoholStep (s : Controller) (p : SensorData) (o : FetchOutcome) : Controller :=
  if p.alcoholLevel ≠ none ∧ s.hasBeenReady = true then
    handleComplete
      { s with
        finalAlcoholLevel := alcoholLabel p.alcoholLevel,
        alcoholLevel := alcoholLabel p.alcoholLevel,
        stabilityTime := MAX_STABILITY_TIME,
        alcoholTimerArmed := true } o
  else s

/-- handleDataEvent on a non-null payload: the four branches in source
order, the state threaded through them. -/
def handleDataEvent (s : Controller) (p : SensorData) (o : FetchOutcome) : Controller :=
  alcoholStep (pulseStep (tempStep (readyStep s p) p) p) p o

/-- handleDataEvent including the null-payload guard at its head. -/
def handleDataEventNullable (s : Controller) (d : Option SensorData)
    (o : FetchOutcome) : Controller :=
  match d with
  | none => s
  | some p => handleDataEvent s p o

/-- One inbound event of a run: a sensor payload (with the outcome the
inline submission would see), a timer firing, or a direct handleComplete
call from the presentation layer. -/
inductive Op where
  | data (p : SensorData) (o : FetchOutcome) : Op
  | timeout (t : StateKey) : Op
  | complete (o : FetchOutcome) : Op
deriving DecidableEq, Repr

/-- Dispatch one event to its handler. -/
def step (s : Controller) : Op → Controller
  | Op.data p o => handleDataEvent s p o
  | Op.timeout t => handleTimeout s t
  | Op.complete o => handleComplete s o

/-- Run a list of events from a state. -/
def runOps (s : Controller) (l : List Op) : Controller := l.foldl step s

/-- A typical temperature payload. -/
def tempEvent : SensorData := { temperature := some "36.6" }

/-- A typical pulse payload. -/
def pulseEvent : SensorData := { pulse := some "80" }

/-- The hardware warm-up payload. -/
def readyEvent : SensorData := { sensorReady := some true }

/-- An alcohol classification payload. -/
def alcoholEvent (lvl : String) : SensorData := { alcoholLevel := some lvl }

/-- A successful submission outcome. -/
def okOutcome : FetchOutcome := FetchOutcome.resolved true

/-- n temperature events delivered from the initial state. -/
def tempRun : ℕ → Controller
  | 0 => initState none
  | n + 1 => handleDataEvent (tempRun n) tempEvent okOutcome

/-- The events that drive a fresh flow to the ALCOHOL phase: warm-up, seven
temperature readings, one pulse reading. -/
def preOps : List Op :=
  Op.data readyEvent okOutcome ::
    (List.replicate 7 (Op.data tempEvent okOutcome) ++ [Op.data pulseEvent okOutcome])

/-- The reachable state at the start of the ALCOHOL phase of a flow whose
localStorage holds a face identifier. -/
def alcoholPre : Controller := runOps (initState (some "f")) preOps

/-! ## Frame lemmas for the individual handlers -/

/-- handleComplete never changes the phase, the counter, the readings, the
labels, the readiness flags, the timeout latches, the failure signals, the
home navigations or the stored face identifier. -/
lemma handleComplete_frame (s : Controller) (o : FetchOutcome) :
    (handleComplete s o).currentState = s.currentState ∧
    (handleComplete s o).stabilityTime = s.stabilityTime ∧
    (handleComplete s o).temperature = s.temperature ∧
    (handleComplete s o).pulse = s.pulse ∧
    (handleComplete s o).alcoholLevel = s.alcoholLevel ∧
    (handleComplete s o).finalAlcoholLevel = s.finalAlcoholLevel ∧
    (handleComplete s o).sensorReady = s.sensorReady ∧
    (handleComplete s o).hasBeenReady = s.hasBeenReady ∧
    (handleComplete s o).hasTimedOutTemp = s.hasTimedOutTemp ∧
    (handleComplete s o).hasTimedOutPulse = s.hasTimedOutPulse ∧
    (handleComplete s o).hasTimedOutAlcohol = s.hasTimedOutAlcohol ∧
    (handleComplete s o).failSignals = s.failSignals ∧
    (handleComplete s o).navigatedHome = s.navigatedHome ∧
    (handleComplete s o).faceId = s.faceId := by
  by_cases hg : s.isSubmitting = true ∨ s.currentState ≠ StateKey.ALCOHOL
  · simp [handleComplete, hg]
  · cases hf : s.faceId with
    | none => cases o <;> simp [handleComplete, hf, hg]
    | some fid =>
      by_cases hfe : fid = "" <;> cases o <;> simp [handleComplete, hf, hg, hfe]

/-- A handleComplete call while a submission is in flight (or succeeded) is
a no-op. -/
lemma handleComplete_noop_of_isSubmitting (s : Controller) (o : FetchOutcome)
    (h : s.isSubmitting = true) : handleComplete s o = s := by
  unfold handleComplete
  rw [if_pos (Or.inl h)]

/-- When the guard passes and a truthy (non-empty) face identifier is
stored, handleComplete POSTs exactly the current readings together with the
stored final alcohol label, whatever the fetch outcome. -/
lemma handleComplete_submits (s : Controller) (o : FetchOutcome) (fid : String)
    (h1 : s.isSubmitting = false) (h2 : s.currentState = StateKey.ALCOHOL)
    (h3 : s.faceId = some fid) (h4 : fid ≠ "") :
    (handleComplete s o).submitted =
      s.submitted ++ [{ temperatureData := s.temperature, pulseData := s.pulse,
                        alcoholData := s.finalAlcoholLevel, faceId := fid }] := by
  unfold handleComplete
  rw [if_neg (by simp [h1, h2])]
  cases o <;> simp [h3, h4]

/-- A falsy stored face identifier - the entry absent, or present but
empty - makes handleComplete throw before the fetch: the error is reported,
the latch is released, nothing is POSTed and no navigation happens (the
socket has already been disconnected). -/
lemma handleComplete_falsy_faceId (s : Controller) (o : FetchOutcome)
    (h1 : s.isSubmitting = false) (h2 : s.currentState = StateKey.ALCOHOL)
    (h3 : s.faceId = none ∨ s.faceId = some "") :
    (handleComplete s o).submitted = s.submitted ∧
    (handleComplete s o).completeErrors = s.completeErrors + 1 ∧
    (handleComplete s o).isSubmitting = false ∧
    (handleComplete s o).navigatedResults = s.navigatedResults := by
  unfold handleComplete
  rw [if_neg (by simp [h1, h2])]
  rcases h3 with h3 | h3 <;> simp [h3]

/-- The readiness branch touches only the two readiness flags. -/
lemma readyStep_frame (s : Controller) (p : SensorData) :
    (readyStep s p).currentState = s.currentState ∧
    (readyStep s p).stabilityTime = s.stabilityTime ∧
    (readyStep s p).temperature = s.temperature ∧
    (readyStep s p).pulse = s.pulse ∧
    (readyStep s p).alcoholLevel = s.alcoholLevel ∧
    (readyStep s p).finalAlcoholLevel = s.finalAlcoholLevel ∧
    (readyStep s p).isSubmitting = s.isSubmitting ∧
    (readyStep s p).submitted = s.submitted ∧
    (readyStep s p).failSignals = s.failSignals ∧
    (readyStep s p).hasTimedOutTemp = s.hasTimedOutTemp ∧
    (readyStep s p).hasTimedOutPulse = s.hasTimedOutPulse ∧
    (readyStep s p).hasTimedOutAlcohol = s.hasTimedOutAlcohol ∧
    (readyStep s p).navigatedHome = s.navigatedHome ∧
    (readyStep s p).navigatedResults = s.navigatedResults ∧
    (readyStep s p).completeErrors = s.completeErrors ∧
    (readyStep s p).faceId = s.faceId := by
  unfold readyStep
  split
  · split <;> simp
  · simp

/-- The temperature branch never touches the pulse reading, the alcohol
labels, the readiness flags, the submission machinery or the failure
bookkeeping. -/
lemma tempStep_frame (s : Controller) (p : SensorData) :
    (tempStep s p).pulse = s.pulse ∧
    (tempStep s p).alcoholLevel = s.alcoholLevel ∧
    (tempStep s p).finalAlcoholLevel = s.finalAlcoholLevel ∧
    (tempStep s p).sensorReady = s.sensorReady ∧
    (tempStep s p).hasBeenReady = s.hasBeenReady ∧
    (tempStep s p).isSubmitting = s.isSubmitting ∧
    (tempStep s p).submitted = s.submitted ∧
    (tempStep s p).failSignals = s.failSignals ∧
    (tempStep s p).hasTimedOutTemp = s.hasTimedOutTemp ∧
    (tempStep s p).hasTimedOutPulse = s.hasTimedOutPulse ∧
    (tempStep s p).hasTimedOutAlcohol = s.hasTimedOutAlcohol ∧
    (tempStep s p).navigatedHome = s.navigatedHome ∧
    (tempStep s p).navigatedResults = s.navigatedResults ∧
    (tempStep s p).completeErrors = s.completeErrors ∧
    (tempStep s p).faceId = s.faceId := by
  unfold tempStep
  split <;> simp

/-- The pulse branch never touches the temperature reading, the alcohol
labels, the readiness flags, the submission machinery or the failure
bookkeeping. -/
lemma pulseStep_frame (s : Controller) (p : SensorData) :
    (pulseStep s p).temperature = s.temperature ∧
    (pulseStep s p).alcoholLevel = s.alcoholLevel ∧
    (pulseStep s p).finalAlcoholLevel = s.finalAlcoholLevel ∧
    (pulseStep s p).sensorReady = s.sensorReady ∧
    (pulseStep s p).hasBeenReady = s.hasBeenReady ∧
    (pulseStep s p).isSubmitting = s.isSubmitting ∧
    (pulseStep s p).submitted = s.submitted ∧
    (pulseStep s p).failSignals = s.failSignals ∧
    (pulseStep s p).hasTimedOutTemp = s.hasTimedOutTemp ∧
    (pulseStep s p).hasTimedOutPulse = s.hasTimedOutPulse ∧
    (pulseStep s p).hasTimedOutAlcohol = s.hasTimedOutAlcohol ∧
    (pulseStep s p).navigatedHome = s.navigatedHome ∧
    (pulseStep s p).navigatedResults = s.navigatedResults ∧
    (pulseStep s p).completeErrors = s.completeErrors ∧
    (pulseStep s p).faceId = s.faceId := by
  unfold pulseStep
  split <;> simp

/-- The alcohol branch (submission included) never touches the numeric
readings, the readiness flags, the failure signals, the timeout latches,
the home navigations or the face identifier. -/
lemma alcoholStep_frame (s : Controller) (p : SensorData) (o : FetchOutcome) :
    (alcoholStep s p o).temperature = s.temperature ∧
    (alcoholStep s p o).pulse = s.pulse ∧
    (alcoholStep s p o).sensorReady = s.sensorReady ∧
    (alcoholStep s p o).hasBeenReady = s.hasBeenReady ∧
    (alcoholStep s p o).failSignals = s.failSignals ∧
    (alcoholStep s p o).hasTimedOutTemp = s.hasTimedOutTemp ∧
    (alcoholStep s p o).hasTimedOutPulse = s.hasTimedOutPulse ∧
    (alcoholStep s p o).hasTimedOutAlcohol = s.hasTimedOutAlcohol ∧
    (alcoholStep s p o).navigatedHome = s.navigatedHome ∧
    (alcoholStep s p o).faceId = s.faceId := by
  unfold alcoholStep
  split
  · obtain ⟨hCS, hST, hT, hP, hAL, hFA, hSR, hBR, hT1, hT2, hT3, hFS, hNH, hFI⟩ :=
      handleComplete_frame
        { s with
          finalAlcoholLevel := alcoholLabel p.alcoholLevel,
          alcoholLevel := alcoholLabel p.alcoholLevel,
          stabilityTime := MAX_STABILITY_TIME,
          alcoholTimerArmed := true } o
    exact ⟨hT, hP, hSR, hBR, hFS, hT1, hT2, hT3, hNH, hFI⟩
  · simp

/-! ## Branch-shape lemmas -/

/-- A falsy temperature field skips the temperature branch. -/
lemma tempStep_none (s : Controller) (p : SensorData)
    (h : tempTruthy p.temperature = false) : tempStep s p = s := by
  unfold tempStep
  rw [h]
  simp

/-- An absent pulse field skips the pulse branch. -/
lemma pulseStep_none (s : Controller) (p : SensorData)
    (h : p.pulse = none) : pulseStep s p = s := by
  unfold pulseStep
  rw [if_neg]
  simp [h]

/-- An absent alcohol field skips the alcohol branch. -/
lemma alcoholStep_none (s : Controller) (p : SensorData) (o : FetchOutcome)
    (h : p.alcoholLevel = none) : alcoholStep s p o = s := by
  unfold alcoholStep
  rw [if_neg]
  intro hc
  exact hc.1 h

/-- An absent readiness field skips the readiness branch. -/
lemma readyStep_skip (s : Controller) (p : SensorData)
    (h : p.sensorReady = none) : readyStep s p = s := by
  unfold readyStep
  rw [if_neg]
  intro hc
  exact hc.1 h

/-- The effect of a truthy temperature field. -/
lemma tempStep_taken (s : Controller) (p : SensorData)
    (h : tempTruthy p.temperature = true) :
    tempStep s p =
      { s with
        stabilityTime := s.stabilityTime + 1,
        temperature := parseFloat (p.temperature.getD ""),
        currentState :=
          if s.stabilityTime + 1 ≥ MAX_STABILITY_TIME then StateKey.PULSE
          else s.currentState,
        tempTimerArmed := true } := by
  unfold tempStep
  rw [h]
  simp

/-- The effect of a present pulse field. -/
lemma pulseStep_taken (s : Controller) (p : SensorData)
    (h : p.pulse ≠ none) :
    pulseStep s p =
      { s with
        stabilityTime := s.stabilityTime + 1,
        pulse := parseFloat (p.pulse.getD ""),
        currentState :=
          if s.stabilityTime + 1 ≥ MAX_STABILITY_TIME then StateKey.ALCOHOL
          else s.currentState,
        pulseTimerArmed := true } := by
  unfold pulseStep
  rw [if_pos h]

/-- The effect of a present alcohol field once the readiness latch holds. -/
lemma alcoholStep_taken (s : Controller) (p : SensorData) (o : FetchOutcome)
    (h1 : p.alcoholLevel ≠ none) (h2 : s.hasBeenReady = true) :
    alcoholStep s p o =
      handleComplete
        { s with
          finalAlcoholLevel := alcoholLabel p.alcoholLevel,
          alcoholLevel := alcoholLabel p.alcoholLevel,
          stabilityTime := MAX_STABILITY_TIME,
          alcoholTimerArmed := true } o := by
  unfold alcoholStep
  rw [if_pos ⟨h1, h2⟩]

/-- The effect of a true readiness field while the latch is still open. -/
lemma readyStep_taken (s : Controller) (p : SensorData)
    (h1 : s.hasBeenReady = false) (h2 : p.sensorReady = some true) :
    readyStep s p = { s with hasBeenReady := true, sensorReady := true } := by
  unfold readyStep
  rw [if_pos ⟨by simp [h2], h1⟩, if_pos h2]

/-- The readiness branch only ever raises the readiness flags. -/
lemma readyStep_ready_mono (s : Controller) (p : SensorData) :
    (s.sensorReady = true → (readyStep s p).sensorReady = true) ∧
    (s.hasBeenReady = true → (readyStep s p).hasBeenReady = true) := by
  unfold readyStep
  split
  · split <;> simp
  · simp

/-- handleTimeout never touches the readiness flags. -/
lemma handleTimeout_ready (s : Controller) (t : StateKey) :
    (handleTimeout s t).sensorReady = s.sensorReady ∧
    (handleTimeout s t).hasBeenReady = s.hasBeenReady := by
  unfold handleTimeout
  split <;> simp

/-! ## Composite lemmas about handleDataEvent -/

lemma alcoholStep_submitted_frozen (s : Controller) (p : SensorData) (o : FetchOutcome)
    (h : s.isSubmitting = true) : (alcoholStep s p o).submitted = s.submitted := by
  unfold alcoholStep
  split
  · have hn : handleComplete
        { s with finalAlcoholLevel := alcoholLabel p.alcoholLevel,
                 alcoholLevel := alcoholLabel p.alcoholLevel,
                 stabilityTime := MAX_STABILITY_TIME,
                 alcoholTimerArmed := true } o =
        { s with finalAlcoholLevel := alcoholLabel p.alcoholLevel,
                 alcoholLevel := alcoholLabel p.alcoholLevel,
                 stabilityTime := MAX_STABILITY_TIME,
                 alcoholTimerArmed := true } :=
      handleComplete_noop_of_isSubmitting _ _ h
    rw [hn]
  · rfl

lemma dataEvent_ready_mono (s : Controller) (p : SensorData) (o : FetchOutcome) :
    ((readyStep s p).sensorReady = true → (handleDataEvent s p o).sensorReady = true) ∧
    ((readyStep s p).hasBeenReady = true → (handleDataEvent s p o).hasBeenReady = true) := by
  unfold handleDataEvent
  obtain ⟨_, _, _, t4, t5, _, _, _, _, _, _, _, _, _, _⟩ :=
    tempStep_frame (readyStep s p) p
  obtain ⟨_, _, _, p4, p5, _, _, _, _, _, _, _, _, _, _⟩ :=
    pulseStep_frame (tempStep (readyStep s p) p) p
  obtain ⟨_, _, a3, a4, _, _, _, _, _, _⟩ :=
    alcoholStep_frame (pulseStep (tempStep (readyStep s p) p) p) p o
  constructor
  · intro h
    rw [a3, p4, t4, h]
  · intro h
    rw [a4, p5, t5, h]

lemma dataEvent_submitted_frozen (s : Controller) (p : SensorData) (o : FetchOutcome)
    (h : s.isSubmitting = true) :
    (handleDataEvent s p o).submitted = s.submitted := by
  unfold handleDataEvent
  obtain ⟨_, _, _, _, _, _, rIS, rSub, _, _, _, _, _, _, _, _⟩ := readyStep_frame s p
  obtain ⟨_, _, _, _, _, tIS, tSub, _, _, _, _, _, _, _, _⟩ :=
    tempStep_frame (readyStep s p) p
  obtain ⟨_, _, _, _, _, pIS, pSub, _, _, _, _, _, _, _, _⟩ :=
    pulseStep_frame (tempStep (readyStep s p) p) p
  have hIs : (pulseStep (tempStep (readyStep s p) p) p).isSubmitting = true := by
    rw [pIS, tIS, rIS, h]
  rw [alcoholStep_submitted_frozen _ _ _ hIs, pSub, tSub, rSub]

lemma dataEvent_signals_frozen (s : Controller) (p : SensorData) (o : FetchOutcome) :
    (handleDataEvent s p o).failSignals = s.failSignals ∧
    (handleDataEvent s p o).hasTimedOutTemp = s.hasTimedOutTemp ∧
    (handleDataEvent s p o).hasTimedOutPulse = s.hasTimedOutPulse ∧
    (handleDataEvent s p o).hasTimedOutAlcohol = s.hasTimedOutAlcohol := by
  unfold handleDataEvent
  obtain ⟨_, _, _, _, _, _, _, _, rFS, rL1, rL2, rL3, _, _, _, _⟩ := readyStep_frame s p
  obtain ⟨_, _, _, _, _, _, _, tFS, tL1, tL2, tL3, _, _, _, _⟩ :=
    tempStep_frame (readyStep s p) p
  obtain ⟨_, _, _, _, _, _, _, pFS, pL1, pL2, pL3, _, _, _, _⟩ :=
    pulseStep_frame (tempStep (readyStep s p) p) p
  obtain ⟨_, _, _, _, aFS, aL1, aL2, aL3, _, _⟩ :=
    alcoholStep_frame (pulseStep (tempStep (readyStep s p) p) p) p o
  refine ⟨?_, ?_, ?_, ?_⟩
  · rw [aFS, pFS, tFS, rFS]
  · rw [aL1, pL1, tL1, rL1]
  · rw [aL2, pL2, tL2, rL2]
  · rw [aL3, pL3, tL3, rL3]

/-! ## Counting failure signals -/

/-- Number of failure signals emitted for a given phase. -/
def signalCount : List StateKey → StateKey → ℕ
  | [], _ => 0
  | x :: xs, t => (if x = t then 1 else 0) + signalCount xs t

lemma signalCount_append (l1 l2 : List StateKey) (t : StateKey) :
    signalCount (l1 ++ l2) t = signalCount l1 t + signalCount l2 t := by
  induction l1 with
  | nil => simp [signalCount]
  | cons x xs ih => simp [signalCount, ih, Nat.add_assoc]

/-- The per-phase timeout latch of a state. -/
def timedOutFlag (s : Controller) : StateKey → Bool
  | StateKey.TEMPERATURE => s.hasTimedOutTemp
  | StateKey.PULSE => s.hasTimedOutPulse
  | StateKey.ALCOHOL => s.hasTimedOutAlcohol

/-- Invariant tying each phase latch to the signals already emitted: at
most one failure signal per phase, and none while the latch is open. -/
def SignalInv (s : Controller) : Prop :=
  ∀ t, signalCount s.failSignals t ≤ 1 ∧
    (timedOutFlag s t = false → signalCount s.failSignals t = 0)

lemma timeout_preserves_inv (s : Controller) (t : StateKey) (h : SignalInv s) :
    SignalInv (handleTimeout s t) := by
  have h1 := h StateKey.TEMPERATURE
  have h2 := h StateKey.PULSE
  have h3 := h StateKey.ALCOHOL
  unfold handleTimeout
  split
  · exact h
  · rename_i hg
    push_neg at hg
    obtain ⟨hg1, hg2, hg3⟩ := hg
    intro t'
    cases t <;> cases t' <;>
      simp_all [timedOutFlag, signalCount_append, signalCount]

lemma step_preserves_inv (s : Controller) (op : Op) (h : SignalInv s) :
    SignalInv (step s op) := by
  cases op with
  | data p o =>
    obtain ⟨hFS, hL1, hL2, hL3⟩ := dataEvent_signals_frozen s p o
    intro t
    refine ⟨?_, ?_⟩
    · rw [show (step s (Op.data p o)) = handleDataEvent s p o from rfl, hFS]
      exact (h t).1
    · intro hflag
      rw [show (step s (Op.data p o)) = handleDataEvent s p o from rfl, hFS]
      apply (h t).2
      cases t <;> simp_all [timedOutFlag, step]
  | timeout t => exact timeout_preserves_inv s t h
  | complete o =>
    obtain ⟨_, _, _, _, _, _, _, _, cL1, cL2, cL3, cFS, _, _⟩ := handleComplete_frame s o
    intro t
    refine ⟨?_, ?_⟩
    · rw [show (step s (Op.complete o)) = handleComplete s o from rfl, cFS]
      exact (h t).1
    · intro hflag
      rw [show (step s (Op.complete o)) = handleComplete s o from rfl, cFS]
      apply (h t).2
      cases t <;> simp_all [timedOutFlag, step]

lemma runOps_preserves_inv (l : List Op) (s : Controller) (h : SignalInv s) :
    SignalInv (runOps s l) := by
  induction l generalizing s with
  | nil => exact h
  | cons op ops ih => exact ih (step s op) (step_preserves_inv s op h)

lemma initState_inv (fid : Option String) : SignalInv (initState fid) := by
  intro t
  exact ⟨Nat.zero_le 1, fun _ => rfl⟩

/-! ## Claim theorems -/

/-- Claim C1 counterexample: delivering to the initial controller seven
accepted temperature readings (active phase TEMPERATURE throughout) and
then one accepted pulse reading (active phase PULSE) leaves the stability
counter at 8: the counter is not capped at MAX_STABILITY_TIME = 7 and does
not equal min(N, 7) for N = 8 accepted readings of the active phase. -/
theorem c1_counterexample :
    (tempRun 7).currentState = StateKey.PULSE ∧
    (handleDataEvent (tempRun 7) pulseEvent okOutcome).stabilityTime = 8 ∧
    ¬ (handleDataEvent (tempRun 7) pulseEvent okOutcome).stabilityTime ≤ MAX_STABILITY_TIME ∧
    (handleDataEvent (tempRun 7) pulseEvent okOutcome).stabilityTime ≠
      min 8 MAX_STABILITY_TIME := by
  decide

/-- Claim C1 (amended): each accepted reading increments the stability
counter by exactly 1 with no cap applied by handleDataEvent; starting from
the initial state, after N accepted temperature readings with N ≤ 7 the
counter equals N, and the controller leaves the TEMPERATURE phase exactly
when the counter reaches MAX_STABILITY_TIME = 7.  Because the counter is
never reset on the transition, the very next accepted reading pushes it to
8, beyond the threshold. -/
theorem c1_amended (n : ℕ) (h : n ≤ 7) :
    (tempRun n).stabilityTime = n ∧
    (tempRun n).currentState =
      (if n ≥ 7 then StateKey.PULSE else StateKey.TEMPERATURE) := by
  interval_cases n <;> exact ⟨by decide, by decide⟩

/-- Witness instantiating c1_amended at n = 7. -/
theorem c1_witness :
    (tempRun 7).stabilityTime = 7 ∧
    (tempRun 7).currentState =
      (if 7 ≥ 7 then StateKey.PULSE else StateKey.TEMPERATURE) :=
  c1_amended 7 (by decide)

/-- Claim C2 counterexample: the seventh accepted temperature reading moves
the controller from TEMPERATURE to PULSE, but the stability counter
observed in the newly entered PULSE phase is 7, not 0: no reset happens on
the transition. -/
theorem c2_counterexample :
    (tempRun 6).currentState = StateKey.TEMPERATURE ∧
    (tempRun 6).stabilityTime = 6 ∧
    (handleDataEvent (tempRun 6) tempEvent okOutcome).currentState = StateKey.PULSE ∧
    (handleDataEvent (tempRun 6) tempEvent okOutcome).stabilityTime = 7 ∧
    (handleDataEvent (tempRun 6) tempEvent okOutcome).stabilityTime ≠ 0 := by
  decide

/-- Claim C2 (amended): an accepted reading matching the active non-terminal
numeric phase moves the controller to exactly the next phase of the
sequence when the incremented counter reaches the threshold (TEMPERATURE to
PULSE, PULSE to ALCOHOL - never skipping, never regressing), and stays in
the phase below the threshold; the stability counter, however, is not reset
by the transition: it keeps the incremented value. -/
theorem c2_amended (s : Controller) (p : SensorData) (o : FetchOutcome) :
    (s.currentState = StateKey.TEMPERATURE → tempTruthy p.temperature = true →
      p.pulse = none → p.alcoholLevel = none →
      (handleDataEvent s p o).stabilityTime = s.stabilityTime + 1 ∧
      (handleDataEvent s p o).currentState =
        (if s.stabilityTime + 1 ≥ MAX_STABILITY_TIME then StateKey.PULSE
         else StateKey.TEMPERATURE)) ∧
    (s.currentState = StateKey.PULSE → tempTruthy p.temperature = false →
      p.pulse ≠ none → p.alcoholLevel = none →
      (handleDataEvent s p o).stabilityTime = s.stabilityTime + 1 ∧
      (handleDataEvent s p o).currentState =
        (if s.stabilityTime + 1 ≥ MAX_STABILITY_TIME then StateKey.ALCOHOL
         else StateKey.PULSE)) := by
  obtain ⟨rCS, rST, _, _, _, _, _, _, _, _, _, _, _, _, _, _⟩ := readyStep_frame s p
  constructor
  · intro hcs ht hp ha
    unfold handleDataEvent
    rw [alcoholStep_none _ _ _ ha, pulseStep_none _ _ hp, tempStep_taken _ _ ht]
    refine ⟨by rw [rST], ?_⟩
    show (if (readyStep s p).stabilityTime + 1 ≥ MAX_STABILITY_TIME then StateKey.PULSE
          else (readyStep s p).currentState) = _
    rw [rST, rCS, hcs]
  · intro hcs ht hp ha
    unfold handleDataEvent
    rw [alcoholStep_none _ _ _ ha, tempStep_none _ _ ht, pulseStep_taken _ _ hp]
    refine ⟨by rw [rST], ?_⟩
    show (if (readyStep s p).stabilityTime + 1 ≥ MAX_STABILITY_TIME then StateKey.ALCOHOL
          else (readyStep s p).currentState) = _
    rw [rST, rCS, hcs]

/-- Witness instantiating c2_amended on the seventh temperature reading. -/
theorem c2_witness :
    (handleDataEvent (tempRun 6) tempEvent okOutcome).stabilityTime =
      (tempRun 6).stabilityTime + 1 ∧
    (handleDataEvent (tempRun 6) tempEvent okOutcome).currentState =
      (if (tempRun 6).stabilityTime + 1 ≥ MAX_STABILITY_TIME then StateKey.PULSE
       else StateKey.TEMPERATURE) :=
  (c2_amended (tempRun 6) tempEvent okOutcome).1 (by decide) (by decide) (by decide)
    (by decide)

/-- Claim C3 counterexample: handleDataEvent does not ignore a temperature
field while the active phase is PULSE or ALCOHOL.  In the reachable PULSE
state with counter 7, a temperature payload advances the counter to 8 and
updates the temperature reading; in the reachable ALCOHOL state a further
temperature payload even moves the phase backward to PULSE. -/
theorem c3_counterexample :
    (tempRun 7).currentState = StateKey.PULSE ∧
    (tempRun 7).stabilityTime = 7 ∧
    (handleDataEvent (tempRun 7) tempEvent okOutcome).stabilityTime = 8 ∧
    (handleDataEvent (tempRun 7) pulseEvent okOutcome).currentState = StateKey.ALCOHOL ∧
    (handleDataEvent (handleDataEvent (tempRun 7) pulseEvent okOutcome) tempEvent
        okOutcome).currentState = StateKey.PULSE := by
  decide

/-- Claim C3 (amended): handleDataEvent filters payload fields by presence,
not by active phase - the phase filter lives in the per-phase socket
subscription.  What does hold of the handler: each stored reading changes
only when its own field is accepted (the temperature reading only under a
truthy temperature field, pulse only under a present pulse field, the
alcohol labels only under a present alcohol field), and a payload with no
accepted numeric field and no alcohol field changes neither the stability
counter nor the phase nor the submissions. -/
theorem c3_amended (s : Controller) (p : SensorData) (o : FetchOutcome) :
    (tempTruthy p.temperature = false →
      (handleDataEvent s p o).temperature = s.temperature) ∧
    (p.pulse = none → (handleDataEvent s p o).pulse = s.pulse) ∧
    (p.alcoholLevel = none →
      (handleDataEvent s p o).alcoholLevel = s.alcoholLevel ∧
      (handleDataEvent s p o).finalAlcoholLevel = s.finalAlcoholLevel) ∧
    (tempTruthy p.temperature = false → p.pulse = none → p.alcoholLevel = none →
      (handleDataEvent s p o).stabilityTime = s.stabilityTime ∧
      (handleDataEvent s p o).currentState = s.currentState ∧
      (handleDataEvent s p o).submitted = s.submitted) := by
  obtain ⟨rCS, rST, rT, rP, rAL, rFA, _, rSub, _, _, _, _, _, _, _, _⟩ :=
    readyStep_frame s p
  obtain ⟨t1, t2, t3, _, _, _, _, _, _, _, _, _, _, _, _⟩ :=
    tempStep_frame (readyStep s p) p
  obtain ⟨p1, p2, p3, _, _, _, _, _, _, _, _, _, _, _, _⟩ :=
    pulseStep_frame (tempStep (readyStep s p) p) p
  obtain ⟨a1, a2, _, _, _, _, _, _, _, _⟩ :=
    alcoholStep_frame (pulseStep (tempStep (readyStep s p) p) p) p o
  refine ⟨?_, ?_, ?_, ?_⟩
  · intro ht
    unfold handleDataEvent
    rw [a1, p1]
    rw [tempStep_none _ _ ht, rT]
  · intro hp
    unfold handleDataEvent
    rw [a2]
    rw [pulseStep_none _ _ hp, t1, rP]
  · intro ha
    unfold handleDataEvent
    rw [alcoholStep_none _ _ _ ha]
    exact ⟨by rw [p2, t2, rAL], by rw [p3, t3, rFA]⟩
  · intro ht hp ha
    unfold handleDataEvent
    rw [alcoholStep_none _ _ _ ha, pulseStep_none _ _ hp, tempStep_none _ _ ht]
    exact ⟨rST, rCS, rSub⟩

/-- Witness instantiating c3_amended on a pure readiness payload. -/
theorem c3_witness :
    (handleDataEvent (initState none) readyEvent okOutcome).stabilityTime =
      (initState none).stabilityTime ∧
    (handleDataEvent (initState none) readyEvent okOutcome).currentState =
      (initState none).currentState ∧
    (handleDataEvent (initState none) readyEvent okOutcome).submitted =
      (initState none).submitted :=
  (c3_amended (initState none) readyEvent okOutcome).2.2.2 (by decide) (by decide)
    (by decide)

/-- The event runs refuting claim C4: a readiness event, seven temperature
readings, one pulse reading, then one alcohol classification whose
submission is rejected by the endpoint, and a second classification whose
submission succeeds. -/
def c4ops : List Op :=
  preOps ++ [Op.data (alcoholEvent "normal") FetchOutcome.rejected,
             Op.data (alcoholEvent "normal") (FetchOutcome.resolved true)]

/-- Claim C4 counterexample: after the first submission attempt fails, the
isSubmitting latch is released, so a further classification event triggers
a second submission attempt - the run performs two POSTs, not exactly
one. -/
theorem c4_counterexample :
    (runOps (initState (some "f")) c4ops).submitted.length = 2 ∧
    (runOps (initState (some "f")) c4ops).submitted.length ≠ 1 := by
  decide

/-- Claim C4 (amended): an alcohol classification processed while readiness
holds, the phase is ALCOHOL, no submission is in flight and a truthy
(non-empty) face identifier is stored forces the counter to the threshold
and performs exactly one further submission attempt; while the latch is held (submission
in flight or already succeeded) any further payload adds no submission and
a re-entrant handleComplete call is a no-op.  Only a failed attempt, which
releases the latch, lets a later classification retry. -/
theorem c4_amended (s : Controller) (p : SensorData) (o : FetchOutcome) (lvl fid : String) :
    (s.currentState = StateKey.ALCOHOL → s.hasBeenReady = true →
      s.isSubmitting = false → s.faceId = some fid → fid ≠ "" →
      (handleDataEvent s (alcoholEvent lvl) o).stabilityTime = MAX_STABILITY_TIME ∧
      (handleDataEvent s (alcoholEvent lvl) o).submitted.length = s.submitted.length + 1) ∧
    (s.isSubmitting = true → (handleDataEvent s p o).submitted = s.submitted) ∧
    (s.isSubmitting = true → handleComplete s o = s) := by
  refine ⟨?_, fun h => dataEvent_submitted_frozen s p o h,
    fun h => handleComplete_noop_of_isSubmitting s o h⟩
  intro hcs hbr hsubm hface hfid
  unfold handleDataEvent
  rw [readyStep_skip s (alcoholEvent lvl) rfl, tempStep_none s (alcoholEvent lvl) rfl,
    pulseStep_none s (alcoholEvent lvl) rfl,
    alcoholStep_taken s (alcoholEvent lvl) o (Option.some_ne_none lvl) hbr]
  have hsub := handleComplete_submits
    { s with finalAlcoholLevel := alcoholLabel (alcoholEvent lvl).alcoholLevel,
             alcoholLevel := alcoholLabel (alcoholEvent lvl).alcoholLevel,
             stabilityTime := MAX_STABILITY_TIME,
             alcoholTimerArmed := true } o fid hsubm hcs hface hfid
  obtain ⟨_, hST, _⟩ := handleComplete_frame
    { s with finalAlcoholLevel := alcoholLabel (alcoholEvent lvl).alcoholLevel,
             alcoholLevel := alcoholLabel (alcoholEvent lvl).alcoholLevel,
             stabilityTime := MAX_STABILITY_TIME,
             alcoholTimerArmed := true } o
  constructor
  · rw [hST]
  · rw [hsub]
    simp

/-- Witness instantiating the first part of c4_amended at the reachable
ALCOHOL-phase state. -/
theorem c4_witness :
    (handleDataEvent alcoholPre (alcoholEvent "normal") okOutcome).stabilityTime =
      MAX_STABILITY_TIME ∧
    (handleDataEvent alcoholPre (alcoholEvent "normal") okOutcome).submitted.length =
      alcoholPre.submitted.length + 1 :=
  (c4_amended alcoholPre tempEvent okOutcome "normal" "f").1 (by decide) (by decide)
    (by decide) (by decide) (by decide)

/-- The reachable state right after the first accepted alcohol
classification: the sober label is stored and the submission succeeded. -/
def c5mid : Controller := handleDataEvent alcoholPre (alcoholEvent "normal") okOutcome

/-- Claim C5 counterexample: after the sober label has been stored by an
accepted classification event, a later contradictory classification
overwrites it with the drunk label although the controller never left the
ALCOHOL phase - the stored label is not write-once. -/
theorem c5_counterexample :
    c5mid.finalAlcoholLevel = "Трезвый" ∧
    c5mid.alcoholLevel = "Трезвый" ∧
    c5mid.currentState = StateKey.ALCOHOL ∧
    (handleDataEvent c5mid (alcoholEvent "abnormal") okOutcome).finalAlcoholLevel =
      "Пьяный" ∧
    (handleDataEvent c5mid (alcoholEvent "abnormal") okOutcome).alcoholLevel =
      "Пьяный" ∧
    (handleDataEvent c5mid (alcoholEvent "abnormal") okOutcome).currentState =
      StateKey.ALCOHOL := by
  decide

/-- Claim C5 (amended): every accepted classification event overwrites the
stored alcohol label with the label it carries; the record POSTed during an
event is built from the label stored by that same event; and while the
submission latch is held no later payload can change the list of submitted
records, so the classification in force when the successful submission
started is the one submitted (the POST requires a truthy stored face
identifier). -/
theorem c5_amended (s : Controller) (p : SensorData) (o : FetchOutcome) (lvl fid : String) :
    (s.isSubmitting = true → (handleDataEvent s p o).submitted = s.submitted) ∧
    (p.alcoholLevel = some lvl → s.hasBeenReady = true →
      (handleDataEvent s p o).finalAlcoholLevel = alcoholLabel (some lvl) ∧
      (handleDataEvent s p o).alcoholLevel = alcoholLabel (some lvl)) ∧
    (s.currentState = StateKey.ALCOHOL → s.hasBeenReady = true →
      s.isSubmitting = false → s.faceId = some fid → fid ≠ "" →
      (handleDataEvent s (alcoholEvent lvl) o).submitted =
        s.submitted ++
          [{ temperatureData := s.temperature, pulseData := s.pulse,
             alcoholData := alcoholLabel (some lvl), faceId := fid }]) := by
  refine ⟨fun h => dataEvent_submitted_frozen s p o h, ?_, ?_⟩
  · intro hal hbr
    obtain ⟨_, _, _, _, t5, _⟩ := tempStep_frame (readyStep s p) p
    obtain ⟨_, _, _, _, p5, _⟩ := pulseStep_frame (tempStep (readyStep s p) p) p
    have hbr3 : (pulseStep (tempStep (readyStep s p) p) p).hasBeenReady = true := by
      rw [p5, t5]
      exact (readyStep_ready_mono s p).2 hbr
    unfold handleDataEvent
    rw [alcoholStep_taken _ _ _ (by rw [hal]; exact Option.some_ne_none lvl) hbr3]
    obtain ⟨_, _, _, _, hAL, hFA, _⟩ := handleComplete_frame
      { pulseStep (tempStep (readyStep s p) p) p with
        finalAlcoholLevel := alcoholLabel p.alcoholLevel,
        alcoholLevel := alcoholLabel p.alcoholLevel,
        stabilityTime := MAX_STABILITY_TIME,
        alcoholTimerArmed := true } o
    constructor
    · rw [hFA, hal]
    · rw [hAL, hal]
  · intro hcs hbr hsubm hface hfid
    unfold handleDataEvent
    rw [readyStep_skip s (alcoholEvent lvl) rfl, tempStep_none s (alcoholEvent lvl) rfl,
      pulseStep_none s (alcoholEvent lvl) rfl,
      alcoholStep_taken s (alcoholEvent lvl) o (Option.some_ne_none lvl) hbr]
    rw [handleComplete_submits
      { s with finalAlcoholLevel := alcoholLabel (alcoholEvent lvl).alcoholLevel,
               alcoholLevel := alcoholLabel (alcoholEvent lvl).alcoholLevel,
               stabilityTime := MAX_STABILITY_TIME,
               alcoholTimerArmed := true } o fid hsubm hcs hface hfid]
    rfl

/-- Witness instantiating the last part of c5_amended at the reachable
ALCOHOL-phase state with a rejected submission. -/
theorem c5_witness :
    (handleDataEvent alcoholPre (alcoholEvent "normal") FetchOutcome.rejected).submitted =
      alcoholPre.submitted ++
        [{ temperatureData := alcoholPre.temperature, pulseData := alcoholPre.pulse,
           alcoholData := alcoholLabel (some "normal"), faceId := "f" }] :=
  (c5_amended alcoholPre tempEvent FetchOutcome.rejected "normal" "f").2.2 (by decide)
    (by decide) (by decide) (by decide) (by decide)

/-- Claim C6 counterexample: a payload that carries a readiness field whose
value is false, processed while readiness is false, does not set readiness
to true - it changes nothing at all.  Only a true readiness field sets the
latch. -/
theorem c6_counterexample :
    (handleDataEvent (initState none) ({ sensorReady := some false } : SensorData)
        okOutcome).sensorReady = false ∧
    handleDataEvent (initState none) ({ sensorReady := some false } : SensorData)
        okOutcome = initState none := by
  decide

/-- Claim C6 (amended): a payload carrying a true readiness field processed
while readiness is false raises both readiness flags, and the flags are a
one-way latch: none of handleDataEvent, handleTimeout or handleComplete
ever lowers either the exposed sensorReady flag or the hasBeenReady ref
again. -/
theorem c6_amended (s : Controller) (p : SensorData) (o : FetchOutcome) (t : StateKey) :
    (s.hasBeenReady = false → p.sensorReady = some true →
      (handleDataEvent s p o).sensorReady = true ∧
      (handleDataEvent s p o).hasBeenReady = true) ∧
    (s.sensorReady = true → (handleDataEvent s p o).sensorReady = true) ∧
    (s.hasBeenReady = true → (handleDataEvent s p o).hasBeenReady = true) ∧
    (s.sensorReady = true → (handleTimeout s t).sensorReady = true) ∧
    (s.hasBeenReady = true → (handleTimeout s t).hasBeenReady = true) ∧
    (s.sensorReady = true → (handleComplete s o).sensorReady = true) ∧
    (s.hasBeenReady = true → (handleComplete s o).hasBeenReady = true) := by
  obtain ⟨hm1, hm2⟩ := dataEvent_ready_mono s p o
  obtain ⟨_, _, _, _, _, _, hSR, hBR, _⟩ := handleComplete_frame s o
  refine ⟨?_, ?_, ?_, ?_, ?_, ?_, ?_⟩
  · intro h1 h2
    have hr := readyStep_taken s p h1 h2
    exact ⟨hm1 (by rw [hr]), hm2 (by rw [hr])⟩
  · intro h
    exact hm1 ((readyStep_ready_mono s p).1 h)
  · intro h
    exact hm2 ((readyStep_ready_mono s p).2 h)
  · intro h
    rw [(handleTimeout_ready s t).1]
    exact h
  · intro h
    rw [(handleTimeout_ready s t).2]
    exact h
  · intro h
    rw [hSR]
    exact h
  · intro h
    rw [hBR]
    exact h

/-- Witness instantiating c6_amended on the warm-up payload at the initial
state. -/
theorem c6_witness :
    (handleDataEvent (initState none) readyEvent okOutcome).sensorReady = true ∧
    (handleDataEvent (initState none) readyEvent okOutcome).hasBeenReady = true :=
  (c6_amended (initState none) readyEvent okOutcome StateKey.TEMPERATURE).1 rfl rfl

/-- The reachable state in which both the temperature and the pulse timer
are pending: a single payload carrying both numeric fields arms both. -/
def c7mid : Controller :=
  handleDataEvent (initState none)
    ({ temperature := some "36.6", pulse := some "80" } : SensorData) okOutcome

/-- Claim C7 counterexample: the timeout latch is per phase, not per flow.
In a reachable state with both the temperature and the pulse timer armed,
both timers firing produce two failure signals (and two scheduled
navigations home) in one run of the flow. -/
theorem c7_counterexample :
    c7mid.tempTimerArmed = true ∧
    c7mid.pulseTimerArmed = true ∧
    (handleTimeout (handleTimeout c7mid StateKey.TEMPERATURE)
        StateKey.PULSE).failSignals = [StateKey.TEMPERATURE, StateKey.PULSE] ∧
    (handleTimeout (handleTimeout c7mid StateKey.TEMPERATURE)
        StateKey.PULSE).failSignals.length = 2 ∧
    (handleTimeout (handleTimeout c7mid StateKey.TEMPERATURE)
        StateKey.PULSE).navigatedHome = 2 := by
  decide

/-- Claim C7 (amended): per phase the failure signal is emitted at most
once.  Over every sequence of sensor events, timer firings and completion
calls from the initial state, the hasTimedOut latch of each phase keeps the
number of failure signals for that phase at or below one; distinct phases
can each contribute their own signal. -/
theorem c7_amended (fid : Option String) (l : List Op) (t : StateKey) :
    signalCount (runOps (initState fid) l).failSignals t ≤ 1 :=
  (runOps_preserves_inv l (initState fid) (initState_inv fid) t).1

/-- Claim C8 counterexample: when the submission endpoint answers with an
error response (the fetch resolves but ok is false), handleComplete does
not detect it: it navigates to the results screen anyway, keeps the
submission latch held and reports no error - the claimed failure handling
only covers a rejected fetch. -/
theorem c8_counterexample :
    (handleDataEvent alcoholPre (alcoholEvent "normal")
        (FetchOutcome.resolved false)).navigatedResults = 1 ∧
    (handleDataEvent alcoholPre (alcoholEvent "normal")
        (FetchOutcome.resolved false)).isSubmitting = true ∧
    (handleDataEvent alcoholPre (alcoholEvent "normal")
        (FetchOutcome.resolved false)).completeErrors = 0 := by
  decide

/-- Claim C8 (amended): when the submission fetch rejects (network or
transport failure) after a POST made possible by a truthy (non-empty)
stored face identifier, handleComplete reports the error, releases the
isSubmitting latch so a later call may retry, performs no navigation to the
results screen and leaves the phase unchanged - one POST having been
issued.  An error response with a resolved fetch is not treated as a
failure. -/
theorem c8_amended (s : Controller) (fid : String)
    (h1 : s.currentState = StateKey.ALCOHOL) (h2 : s.isSubmitting = false)
    (h3 : s.faceId = some fid) (h4 : fid ≠ "") :
    (handleComplete s FetchOutcome.rejected).completeErrors = s.completeErrors + 1 ∧
    (handleComplete s FetchOutcome.rejected).isSubmitting = false ∧
    (handleComplete s FetchOutcome.rejected).navigatedResults = s.navigatedResults ∧
    (handleComplete s FetchOutcome.rejected).currentState = s.currentState ∧
    (handleComplete s FetchOutcome.rejected).submitted.length = s.submitted.length + 1 := by
  unfold handleComplete
  rw [if_neg (by simp [h1, h2])]
  simp [h3, h4]

/-- Witness instantiating c8_amended at the reachable ALCOHOL-phase
state. -/
theorem c8_witness :
    (handleComplete alcoholPre FetchOutcome.rejected).completeErrors =
      alcoholPre.completeErrors + 1 ∧
    (handleComplete alcoholPre FetchOutcome.rejected).isSubmitting = false ∧
    (handleComplete alcoholPre FetchOutcome.rejected).navigatedResults =
      alcoholPre.navigatedResults ∧
    (handleComplete alcoholPre FetchOutcome.rejected).currentState =
      alcoholPre.currentState ∧
    (handleComplete alcoholPre FetchOutcome.rejected).submitted.length =
      alcoholPre.submitted.length + 1 :=
  c8_amended alcoholPre "f" (by decide) (by decide) (by decide) (by decide)

/-- Claim C9 counterexample: a malformed temperature string is not coerced
to the safe default zero - parseFloat yields NaN and the NaN is stored as
the temperature reading. -/
theorem c9_counterexample :
    (handleDataEvent (initState none) ({ temperature := some "abc" } : SensorData)
        okOutcome).temperature = JsNum.nan ∧
    (handleDataEvent (initState none) ({ temperature := some "abc" } : SensorData)
        okOutcome).temperature ≠ JsNum.fin 0 := by
  decide

/-- Claim C9 (amended): a malformed numeric field is never fatal - the
reading is stored as NaN (not zero), the stability counter still advances
by one, and no failure signal or navigation home results - but the parsed
value is NaN rather than the safe default zero. -/
theorem c9_amended (s : Controller) (p : SensorData) (o : FetchOutcome) (str : String) :
    (p.temperature = some str → str ≠ "" → parseFloat str = JsNum.nan →
      p.pulse = none → p.alcoholLevel = none →
      (handleDataEvent s p o).temperature = JsNum.nan ∧
      (handleDataEvent s p o).stabilityTime = s.stabilityTime + 1 ∧
      (handleDataEvent s p o).failSignals = s.failSignals ∧
      (handleDataEvent s p o).navigatedHome = s.navigatedHome) ∧
    (p.temperature = none → p.pulse = some str → parseFloat str = JsNum.nan →
      p.alcoholLevel = none →
      (handleDataEvent s p o).pulse = JsNum.nan ∧
      (handleDataEvent s p o).stabilityTime = s.stabilityTime + 1 ∧
      (handleDataEvent s p o).failSignals = s.failSignals ∧
      (handleDataEvent s p o).navigatedHome = s.navigatedHome) := by
  obtain ⟨_, rST, _, _, _, _, _, _, rFS, _, _, _, rNH, _, _, _⟩ := readyStep_frame s p
  constructor
  · intro ht hne hnan hp ha
    have htruthy : tempTruthy p.temperature = true := by
      rw [ht]
      simpa [tempTruthy] using hne
    unfold handleDataEvent
    rw [alcoholStep_none _ _ _ ha, pulseStep_none _ _ hp, tempStep_taken _ _ htruthy]
    refine ⟨?_, by rw [rST], rFS, rNH⟩
    show parseFloat (p.temperature.getD "") = JsNum.nan
    rw [ht]
    exact hnan
  · intro ht hp hnan ha
    have htfalse : tempTruthy p.temperature = false := by
      rw [ht]
      rfl
    unfold handleDataEvent
    rw [alcoholStep_none _ _ _ ha, tempStep_none _ _ htfalse,
      pulseStep_taken _ _ (by rw [hp]; exact Option.some_ne_none str)]
    refine ⟨?_, by rw [rST], rFS, rNH⟩
    show parseFloat (p.pulse.getD "") = JsNum.nan
    rw [hp]
    exact hnan

/-- Witness instantiating c9_amended on the malformed literal abc. -/
theorem c9_witness :
    (handleDataEvent (initState none) ({ temperature := some "abc" } : SensorData)
        okOutcome).temperature = JsNum.nan ∧
    (handleDataEvent (initState none) ({ temperature := some "abc" } : SensorData)
        okOutcome).stabilityTime = (initState none).stabilityTime + 1 ∧
    (handleDataEvent (initState none) ({ temperature := some "abc" } : SensorData)
        okOutcome).failSignals = (initState none).failSignals ∧
    (handleDataEvent (initState none) ({ temperature := some "abc" } : SensorData)
        okOutcome).navigatedHome = (initState none).navigatedHome :=
  (c9_amended (initState none) ({ temperature := some "abc" } : SensorData) okOutcome
    "abc").1 rfl (by decide) (by decide) rfl rfl

/-- Claim C10: calling handleComplete while the current phase is not
ALCOHOL is a complete no-op - the guard returns before any effect, so no
submission is attempted, the socket stays connected and every field of the
controller state is unchanged. -/
theorem c10_complete_noop (s : Controller) (o : FetchOutcome)
    (h : s.currentState ≠ StateKey.ALCOHOL) : handleComplete s o = s := by
  unfold handleComplete
  rw [if_pos (Or.inr h)]

/-- Witness instantiating c10_complete_noop at the initial TEMPERATURE
state. -/
theorem c10_witness : handleComplete (initState none) okOutcome = initState none :=
  c10_complete_noop (initState none) okOutcome (by decide)

end TrackFacility
